import Mathlib

/-!
Verification of the flash-sale-engine repository (Go) against its
natural-language specification.  The Redis keyspace is modelled as total
functions from key strings to optional values; the two Lua scripts of
src/processor/redis_scripts.go, the worker loop of src/processor/main.go,
the rate limiter of src/gateway/rate_limiter.go and the HTTP handlers of
the gateway (handleBuy, handleHealth) are embedded shallowly as pure Lean
functions.  External collaborators (Redis command semantics, the Kafka
producer, the gobreaker state) appear as explicit oracle inputs.
-/

namespace FlashSale

/-! ## Atomic inventory scripts (src/processor/redis_scripts.go)

A single inventory key holds an optional integer; `none` models an absent
Redis key.  `luaCheckInventoryScript` first runs EXISTS, then DECR, then a
compensating INCR when the decremented value is negative.
`luaRefundInventoryScript` validates its amount argument (`tonumber` of a
missing ARGV is nil, modelled as `none`) and then runs INCRBY, which
creates the key when absent. -/

inductive ReserveReason where
  | NOT_INITIALIZED
  | SOLD_OUT
  | SUCCESS
deriving DecidableEq

/-- The triple returned by the reserve script: Lua table
{success, stock, reason}. -/
structure ReserveResult where
  success : Int
  stock : Int
  reason : ReserveReason
deriving DecidableEq

/-- Embedding of luaCheckInventoryScript: EXISTS check, DECR, and the
conditional compensating INCR, all in one atomic step. -/
def luaCheckInventory (inv : Option Int) : Option Int × ReserveResult :=
  match inv with
  | none => (none, ⟨0, -1, ReserveReason.NOT_INITIALIZED⟩)
  | some v =>
      let current_stock := v - 1
      if current_stock < 0 then
        (some (current_stock + 1), ⟨0, current_stock, ReserveReason.SOLD_OUT⟩)
      else
        (some current_stock, ⟨1, current_stock, ReserveReason.SUCCESS⟩)

/-- The pair returned by the refund script: Lua table {success, new_stock}. -/
structure RefundResult where
  success : Int
  new_stock : Int
deriving DecidableEq

/-- Embedding of luaRefundInventoryScript.  The amount argument is
`Option Int`: `none` models a missing ARGV (Lua tonumber returning nil). -/
def luaRefundInventory (inv : Option Int) (refund_amount : Option Int) :
    Option Int × RefundResult :=
  match refund_amount with
  | none => (inv, ⟨0, 0⟩)
  | some a =>
      if a ≤ 0 then (inv, ⟨0, 0⟩)
      else
        let new_stock := inv.getD 0 + a
        (some new_stock, ⟨1, new_stock⟩)

/-- One atomic script execution against the inventory key: either the
reserve script or the refund script with a given amount argument. -/
inductive InvOp where
  | reserve
  | refund (amount : Option Int)

/-- The store state after one script execution (scripts run atomically,
so this is the only observable transition). -/
def applyInvOp (inv : Option Int) (op : InvOp) : Option Int :=
  match op with
  | InvOp.reserve => (luaCheckInventory inv).1
  | InvOp.refund a => (luaRefundInventory inv a).1

/-- The store state after a finite sequence of script executions. -/
def runInvOps (inv : Option Int) (ops : List InvOp) : Option Int :=
  ops.foldl applyInvOp inv

/-- The inventory value is absent or non-negative. -/
def invNonneg (inv : Option Int) : Prop :=
  match inv with
  | none => True
  | some v => 0 ≤ v

instance : (inv : Option Int) → Decidable (invNonneg inv)
  | none => Decidable.isTrue trivial
  | some v => inferInstanceAs (Decidable (0 ≤ v))

theorem applyInvOp_nonneg (inv : Option Int) (op : InvOp) (h : invNonneg inv) :
    invNonneg (applyInvOp inv op) := by
  cases op with
  | reserve =>
      cases inv with
      | none => simp [applyInvOp, luaCheckInventory, invNonneg]
      | some v =>
          simp only [applyInvOp, luaCheckInventory]
          have hv : 0 ≤ v := h
          by_cases hlt : v - 1 < 0
          · simp only [hlt, if_true]
            show 0 ≤ v - 1 + 1
            omega
          · simp only [hlt, if_false]
            show 0 ≤ v - 1
            omega
  | refund a =>
      cases a with
      | none => simpa [applyInvOp, luaRefundInventory] using h
      | some x =>
          simp only [applyInvOp, luaRefundInventory]
          by_cases hx : x ≤ 0
          · simpa [hx] using h
          · simp only [hx, if_false]
            show 0 ≤ Option.getD inv 0 + x
            cases inv with
            | none => simp; omega
            | some v =>
                have hv : 0 ≤ v := h
                simp [Option.getD]; omega

/-- Claim C1: starting from an absent or non-negative inventory value,
after any finite sequence of reserve-script and refund-script executions
the value stored at the inventory key is absent or non-negative; since
each script is atomic, the states reached after each prefix of the
sequence are exactly the observable points, and the statement quantifies
over all sequences, hence over all prefixes. -/
theorem claim_C1_inventory_nonneg (inv : Option Int) (h : invNonneg inv)
    (ops : List InvOp) : invNonneg (runInvOps inv ops) := by
  induction ops generalizing inv with
  | nil => simpa [runInvOps] using h
  | cons op rest ih =>
      have h2 := applyInvOp_nonneg inv op h
      simpa [runInvOps, List.foldl] using ih (applyInvOp inv op) h2

theorem claim_C1_witness :
    invNonneg (some 2) ∧
      invNonneg (runInvOps (some 2)
        [InvOp.reserve, InvOp.reserve, InvOp.reserve, InvOp.refund (some 1),
         InvOp.reserve, InvOp.reserve]) :=
  ⟨by decide, claim_C1_inventory_nonneg (some 2) (by decide) _⟩

/-- Claim C2: one execution of the reserve script, as a function of the
stored value: absent key yields {0, -1, NOT_INITIALIZED} and no change;
a value v with 1 ≤ v is decremented and yields {1, v-1, SUCCESS}; a value
v ≤ 0 yields {0, v-1, SOLD_OUT} and the stored value stays v. -/
theorem claim_C2_reserve_cases :
    (luaCheckInventory none = (none, ⟨0, -1, ReserveReason.NOT_INITIALIZED⟩))
    ∧ (∀ v : Int, 1 ≤ v →
        luaCheckInventory (some v) = (some (v - 1), ⟨1, v - 1, ReserveReason.SUCCESS⟩))
    ∧ (∀ v : Int, v ≤ 0 →
        luaCheckInventory (some v) = (some v, ⟨0, v - 1, ReserveReason.SOLD_OUT⟩)) := by
  refine ⟨rfl, ?_, ?_⟩
  · intro v hv
    have hlt : ¬ (v - 1 < 0) := by omega
    simp [luaCheckInventory, hlt]
  · intro v hv
    have hlt : v - 1 < 0 := by omega
    have hv1 : v - 1 + 1 = v := by omega
    simp [luaCheckInventory, hlt, hv1]

theorem claim_C2_witness :
    ((1 : Int) ≤ 1 ∧
      luaCheckInventory (some 1) = (some (1 - 1), ⟨1, 1 - 1, ReserveReason.SUCCESS⟩))
    ∧ ((0 : Int) ≤ 0 ∧
      luaCheckInventory (some 0) = (some 0, ⟨0, 0 - 1, ReserveReason.SOLD_OUT⟩)) :=
  ⟨⟨by norm_num, claim_C2_reserve_cases.2.1 1 (by norm_num)⟩,
   ⟨by norm_num, claim_C2_reserve_cases.2.2 0 (by norm_num)⟩⟩

/-! ## The shared Redis keyspace

The four key families used by the system, each modelled as a total
function from the full key string to an optional value.  String-valued
keys carry their TTL (in minutes) alongside the value, since two claims
mention the TTL that a SET attaches. -/

/-- A Redis string value together with the TTL (in minutes) attached by
the SET/SETNX call that wrote it (`none` = no TTL). -/
structure StoreVal where
  value : String
  ttlMinutes : Option Nat
deriving DecidableEq

/-- A rate-limit counter cell: the integer value and its TTL in seconds
(`none` = no TTL). -/
structure RLCell where
  count : Int
  ttlSeconds : Option Nat
deriving DecidableEq

/-- The Redis keyspace as seen by gateway and processor. -/
structure Store where
  inventory : String → Option Int
  idempotency : String → Option StoreVal
  orderStatus : String → Option StoreVal
  ratelimit : String → Option RLCell

/-- Pointwise update of one key in a key-value map. -/
def upd {α : Type} (f : String → Option α) (k : String) (v : Option α) :
    String → Option α :=
  fun k2 => if k2 = k then v else f k2

def inventoryKeyOf (item_id : String) : String := "inventory:" ++ item_id

def idempotencyKeyOf (request_id : String) : String := "idempotency:" ++ request_id

def orderStatusKeyOf (request_id : String) : String := "order_status:" ++ request_id

def rateLimitKeyOf (user_id : String) : String := "ratelimit:" ++ user_id

/-! ## The fulfillment worker (src/processor/main.go, processOrder)

The processor deserializes the Kafka message payload into its
OrderRequest (fields user_id, item_id only), runs the reserve script,
and on reservation success either finishes (settlement success) or runs
the refund script with amount 1 and dead-letters the message with reason
"Payment Timeout".  The settlement oracle models the
time.Now().Unix() % 10 == 0 check.  Store operations are modelled as
succeeding, matching the runs the quiescence claims quantify over; the
Redis-error paths of the Go code dead-letter without touching the store. -/

namespace Processor

/-- The processor's OrderRequest (src/processor/main.go lines 29-32). -/
structure OrderRequest where
  user_id : String
  item_id : String
deriving DecidableEq

end Processor

/-- A consumed Kafka message: the request_id header, the payload (already
run through json.Unmarshal: `none` models a parse failure), and the
settlement oracle (`true` when time.Now().Unix() % 10 == 0). -/
structure ConsumedMessage where
  request_id : String
  payload : Option Processor.OrderRequest
  settlementFails : Bool

/-- The terminal outcome of one processOrder run. -/
inductive WorkerOutcome where
  | dlq (reason : String)
  | soldOut
  | processedSuccess
deriving DecidableEq

/-- Embedding of processOrder (src/processor/main.go lines 139-268).
Note: the function writes only the inventory key; it never writes any
order_status key (the Go function contains no Redis SET, and the
extractRequestID helper it would need is defined but never called). -/
def processOrder (s : Store) (m : ConsumedMessage) : Store × WorkerOutcome :=
  match m.payload with
  | none => (s, WorkerOutcome.dlq "Invalid Order Format")
  | some order =>
      let invKey := inventoryKeyOf order.item_id
      let r1 := luaCheckInventory (s.inventory invKey)
      let s2 : Store := { s with inventory := upd s.inventory invKey r1.1 }
      if r1.2.success = 0 then
        (s2, WorkerOutcome.soldOut)
      else if m.settlementFails then
        let r2 := luaRefundInventory (s2.inventory invKey) (some 1)
        ({ s2 with inventory := upd s2.inventory invKey r2.1 },
         WorkerOutcome.dlq "Payment Timeout")
      else
        (s2, WorkerOutcome.processedSuccess)

/-- The store after the worker has processed a finite sequence of
consumed messages to quiescence. -/
def processAll (s : Store) (ms : List ConsumedMessage) : Store :=
  ms.foldl (fun st m => (processOrder st m).1) s

/-- The string stored under order_status:<request_id>, if any. -/
def statusOf (s : Store) (request_id : String) : Option String :=
  (s.orderStatus (orderStatusKeyOf request_id)).map StoreVal.value

/-- How many of the given request_ids have status COMPLETED in the store. -/
def completedCount (s : Store) (rids : List String) : Nat :=
  (rids.filter (fun r => statusOf s r = some "COMPLETED")).length

/-- A store holding inventory:101 = 1 and the PROCESSING status record
that the gateway writes for request r1 before enqueueing. -/
def storeSeeded1 : Store :=
  { inventory := fun k => if k = "inventory:101" then some 1 else none
    idempotency := fun _ => none
    orderStatus := fun k =>
      if k = "order_status:r1" then some ⟨"PROCESSING", some 30⟩ else none
    ratelimit := fun _ => none }

/-- The consumed message for request r1: a well-formed order for item 101
whose settlement succeeds. -/
def msgR1 : ConsumedMessage := ⟨"r1", some ⟨"u1", "101"⟩, false⟩

/-- Claim C3 (code divergence, evaluated): seed inventory:101 = 1 and let
the worker process one order for item 101 whose settlement succeeds.
At quiescence the inventory is 0, yet no request_id has terminal status
COMPLETED (the status record still reads PROCESSING, written by the
gateway), so inventory_current = 0 differs from
inventory_initial - |COMPLETED| = 1 - 0. -/
theorem claim_C3_code_divergence :
    (processAll storeSeeded1 [msgR1]).inventory "inventory:101" = some 0
    ∧ statusOf (processAll storeSeeded1 [msgR1]) "r1" = some "PROCESSING"
    ∧ completedCount (processAll storeSeeded1 [msgR1]) ["r1"] = 0
    ∧ (0 : Int) ≠
        1 - (completedCount (processAll storeSeeded1 [msgR1]) ["r1"] : Int) := by
  refine ⟨by decide, by decide, by decide, by decide⟩

/-- A store holding inventory:101 = 0 (sold out) and the PROCESSING
status record for request r1. -/
def storeSoldOut : Store :=
  { inventory := fun k => if k = "inventory:101" then some 0 else none
    idempotency := fun _ => none
    orderStatus := fun k =>
      if k = "order_status:r1" then some ⟨"PROCESSING", some 30⟩ else none
    ratelimit := fun _ => none }

/-- Claim C4 (code divergence, evaluated): a consumed message whose
reserve script reports SOLD_OUT ends processOrder with the order_status
key for its request_id still PROCESSING — the worker writes no terminal
status value (FAILED_SOLD_OUT, FAILED_PAYMENT or COMPLETED) on any path. -/
theorem claim_C4_code_divergence :
    (processOrder storeSoldOut msgR1).2 = WorkerOutcome.soldOut
    ∧ statusOf (processOrder storeSoldOut msgR1).1 "r1" = some "PROCESSING"
    ∧ statusOf (processOrder storeSoldOut msgR1).1 "r1" ≠ some "FAILED_SOLD_OUT" := by
  refine ⟨by decide, by decide, by decide⟩

/-- The worker never writes any order_status key: processOrder leaves the
orderStatus component of the store untouched on every path. -/
theorem processOrder_orderStatus_unchanged (s : Store) (m : ConsumedMessage) :
    (processOrder s m).1.orderStatus = s.orderStatus := by
  unfold processOrder
  cases m.payload with
  | none => rfl
  | some order =>
      simp only []
      split
      · rfl
      · split
        · rfl
        · rfl

/-! ## The rate limiter (src/gateway/rate_limiter.go)

Allow runs INCR on ratelimit:<user_id>; on a store error it returns
(true, err) without touching the counter (fail open).  Otherwise, when
the value returned by INCR is 1 it calls EXPIRE with the window length;
it refuses exactly when the value exceeds maxRequests.  INCR on an
absent key counts from 0 and attaches no TTL; EXPIRE overwrites the TTL. -/

/-- The limiter's configuration: maxRequests and the window length in
seconds (defaults 60 and 60). -/
structure RateLimiterCfg where
  maxRequests : Int
  windowSeconds : Nat

/-- What Allow reports back: the allowed flag and whether the store
error was propagated alongside it. -/
structure AllowResult where
  allowed : Bool
  errReturned : Bool
deriving DecidableEq

/-- Embedding of RateLimiter.Allow (src/gateway/rate_limiter.go lines
31-53), as a function of the current counter cell and an oracle telling
whether the INCR call fails. -/
def Allow (cfg : RateLimiterCfg) (cell : Option RLCell) (incrErr : Bool) :
    Option RLCell × AllowResult :=
  if incrErr then
    (cell, ⟨true, true⟩)
  else
    let prev : Int := match cell with | none => 0 | some c => c.count
    let prevTtl : Option Nat := match cell with | none => none | some c => c.ttlSeconds
    let count := prev + 1
    let newTtl := if count = 1 then some cfg.windowSeconds else prevTtl
    if count > cfg.maxRequests then
      (some ⟨count, newTtl⟩, ⟨false, false⟩)
    else
      (some ⟨count, newTtl⟩, ⟨true, false⟩)

/-- The counter value seen by Allow before the increment. -/
def cellCount (cell : Option RLCell) : Int :=
  match cell with | none => 0 | some c => c.count

/-- Claim C8: Allow increments the user's counter; when the resulting
value is 1 it sets the key's TTL to the window length; it allows exactly
when the resulting value is at most maxRequests; and on a store error it
allows without touching the counter (fail open). -/
theorem claim_C8_rate_limiter (cfg : RateLimiterCfg) (cell : Option RLCell) :
    (Allow cfg cell true = (cell, ⟨true, true⟩))
    ∧ ((Allow cfg cell false).1.map RLCell.count = some (cellCount cell + 1))
    ∧ (cellCount cell + 1 = 1 →
        (Allow cfg cell false).1.bind RLCell.ttlSeconds = some cfg.windowSeconds)
    ∧ ((Allow cfg cell false).2.allowed = true ↔ cellCount cell + 1 ≤ cfg.maxRequests) := by
  refine ⟨rfl, ?_, ?_, ?_⟩
  · cases cell <;> simp only [Allow, cellCount] <;> split_ifs <;> simp_all
  · intro hone
    cases cell <;> simp only [Allow, cellCount] at hone ⊢ <;> split_ifs <;> simp_all
  · cases cell <;> simp only [Allow, cellCount] <;> split_ifs <;> simp_all

theorem claim_C8_witness :
    (cellCount (none : Option RLCell) + 1 = 1) ∧
      (Allow ⟨60, 60⟩ none false).1.bind RLCell.ttlSeconds = some 60 :=
  ⟨by decide, (claim_C8_rate_limiter ⟨60, 60⟩ none).2.2.1 (by decide)⟩

/-! ## The gateway (src/unnamed/part_006, src/gateway/validation.go,
src/gateway/circuit_breaker.go)

handleBuy is embedded as a pure function of the current store, the parsed
request body and an oracle record holding the outcomes of the calls that
cross process boundaries within one request: the rate limiter's INCR, the
idempotency SETNX, the breaker state read at the precheck, and the
SendMessage call through the breaker.  The request is processed
sequentially (each Redis operation is atomic and the handler runs one
step after the other), so one handler execution is a store transformer
returning the HTTP response and the list of messages published to the
orders topic. -/

namespace Gateway

/-- The gateway's OrderRequest (src/unnamed/part_006 lines 29-34). -/
structure OrderRequest where
  user_id : String
  item_id : String
  amount : Int
  request_id : String
deriving DecidableEq

end Gateway

/-- A character allowed by the id regexp [a-zA-Z0-9_-]. -/
def isIDChar (c : Char) : Bool :=
  ('a' ≤ c && c ≤ 'z') || ('A' ≤ c && c ≤ 'Z') || ('0' ≤ c && c ≤ '9')
  || c == '_' || c == '-'

/-- Whether a string matches the anchored regexp [a-zA-Z0-9_-]+ : at
least one character and every character in the class. -/
def idPatternMatch (s : String) : Bool :=
  decide (s.length > 0) && s.toList.all isIDChar

/-- A Unicode white-space character as recognized by the Go
strings.TrimSpace call (unicode.IsSpace over the Latin-1 range). -/
def isSpaceChar (c : Char) : Bool :=
  c == ' ' || c == '\t' || c == '\n' || c == Char.ofNat 11 || c == Char.ofNat 12
  || c == '\r' || c == Char.ofNat 133 || c == Char.ofNat 160

/-- Embedding of strings.TrimSpace: drop white space from both ends. -/
def trimSpace (s : String) : String :=
  String.mk (((s.data.dropWhile isSpaceChar).reverse.dropWhile isSpaceChar).reverse)

/-- Embedding of ValidateOrderRequest (src/gateway/validation.go lines
35-111), returning the list of fields that fail, in source order.  The
Go len() counts bytes; String.length counts characters, which agree on
the ASCII inputs the id pattern admits and on the witnesses used here. -/
def ValidateOrderRequest (o : Gateway.OrderRequest) : List String :=
  (if o.user_id = "" then ["user_id"]
   else if o.user_id.length > 100 then ["user_id"]
   else if !idPatternMatch o.user_id then ["user_id"]
   else [])
  ++ (if o.item_id = "" then ["item_id"]
      else if o.item_id.length > 100 then ["item_id"]
      else if !idPatternMatch o.item_id then ["item_id"]
      else [])
  ++ (if o.amount < 1 then ["amount"]
      else if o.amount > 1000 then ["amount"]
      else [])
  ++ (if o.request_id = "" then ["request_id"]
      else if o.request_id.length > 200 then ["request_id"]
      else if trimSpace o.request_id = "" then ["request_id"]
      else [])

/-- The three gobreaker states exposed through CircuitBreaker.State. -/
inductive CBState where
  | Closed
  | Open
  | HalfOpen
deriving DecidableEq

/-- The test the gateway performs against the breaker state string
(producer.State().String() compared with the Open name). -/
def stateIsOpen : CBState → Bool
  | CBState.Open => true
  | _ => false

/-- Outcome of one SendMessage call through the producer guard
(src/gateway/circuit_breaker.go lines 86-123): success, rejection
because the breaker is open, a transient broker fault, or another
failure.  handleBuy only observes err being nil or not. -/
inductive EnqueueOutcome where
  | success
  | failBreakerOpen
  | failTransient
  | failOther
deriving DecidableEq

/-- The per-request oracle: outcomes of the fallible external calls made
while handling one /buy request. -/
structure BuyEnv where
  rateLimitIncrErr : Bool
  idemSetNXErr : Bool
  cbState : CBState
  enqueue : EnqueueOutcome

/-- The request body after json.Decode: either a decode failure or a
decoded order. -/
inductive ParsedBody where
  | invalid
  | valid (o : Gateway.OrderRequest)

/-- The distinct HTTP responses handleBuy can produce. -/
inductive BuyResponse where
  | invalidBody
  | rateLimited
  | validationFailed
  | internalError
  | duplicate
  | unavailable
  | failedToQueue
  | accepted
deriving DecidableEq

/-- The HTTP status code written with each response. -/
def httpStatusOf : BuyResponse → Nat
  | BuyResponse.invalidBody => 400
  | BuyResponse.rateLimited => 429
  | BuyResponse.validationFailed => 400
  | BuyResponse.internalError => 500
  | BuyResponse.duplicate => 409
  | BuyResponse.unavailable => 503
  | BuyResponse.failedToQueue => 500
  | BuyResponse.accepted => 202

/-- A message published to the orders topic, with its request_id header. -/
structure QueueMessage where
  topic : String
  payload : Gateway.OrderRequest
  request_id : String
deriving DecidableEq

/-- The store transformation of the rate-limiting step of handleBuy:
Allow run against ratelimit:<user_id>, writing back the new cell. -/
def rateLimitStep (cfg : RateLimiterCfg) (s : Store) (user_id : String)
    (incrErr : Bool) : Store × AllowResult :=
  let r := Allow cfg (s.ratelimit (rateLimitKeyOf user_id)) incrErr
  ({ s with ratelimit := upd s.ratelimit (rateLimitKeyOf user_id) r.1 }, r.2)

/-- Embedding of handleBuy (src/unnamed/part_006 lines 135-313).  Steps
in source order: decode, rate limit (429 only when the limiter returned
no error and refused), validation (400), SETNX on
idempotency:<request_id> (500 on store error, 409 when the key already
existed), best-effort SET of order_status:<request_id> to PROCESSING
with a 30-minute TTL, breaker precheck (delete the idempotency key and
503 when open), SendMessage through the guard (on any error: delete the
idempotency key and 500 "Failed to queue order"), else 202 with exactly
one message published. -/
def handleBuy (cfg : RateLimiterCfg) (s : Store) (body : ParsedBody)
    (env : BuyEnv) : Store × BuyResponse × List QueueMessage :=
  match body with
  | ParsedBody.invalid => (s, BuyResponse.invalidBody, [])
  | ParsedBody.valid order =>
      let step1 := rateLimitStep cfg s order.user_id env.rateLimitIncrErr
      let s1 := step1.1
      let rl := step1.2
      if !rl.errReturned && !rl.allowed then
        (s1, BuyResponse.rateLimited, [])
      else if (ValidateOrderRequest order).length > 0 then
        (s1, BuyResponse.validationFailed, [])
      else if env.idemSetNXErr then
        (s1, BuyResponse.internalError, [])
      else
        match s1.idempotency (idempotencyKeyOf order.request_id) with
        | some _ => (s1, BuyResponse.duplicate, [])
        | none =>
            let s2 : Store := { s1 with
              idempotency := upd s1.idempotency (idempotencyKeyOf order.request_id)
                (some ⟨"processing", some 10⟩) }
            let s3 : Store := { s2 with
              orderStatus := upd s2.orderStatus (orderStatusKeyOf order.request_id)
                (some ⟨"PROCESSING", some 30⟩) }
            if stateIsOpen env.cbState then
              ({ s3 with
                  idempotency := upd s3.idempotency
                    (idempotencyKeyOf order.request_id) none },
               BuyResponse.unavailable, [])
            else
              match env.enqueue with
              | EnqueueOutcome.success =>
                  (s3, BuyResponse.accepted,
                   [⟨"orders", order, order.request_id⟩])
              | _ =>
                  ({ s3 with
                      idempotency := upd s3.idempotency
                        (idempotencyKeyOf order.request_id) none },
                   BuyResponse.failedToQueue, [])

/-- The JSON document written by handleHealth together with the HTTP
status code. -/
structure HealthResponse where
  httpStatus : Nat
  status : String
  redis : Bool
  kafka : Bool
  circuit_breaker_state : CBState
deriving DecidableEq

/-- Embedding of handleHealth (src/unnamed/part_006 lines 317-344; the
same logic appears in src/gateway/main.go lines 194-220): redis is the
outcome of the deadline-bound ping, kafka is true unless the breaker
state reads as Open, the HTTP code is 503 when either check fails, and
the status field is the literal "healthy" in every case. -/
def handleHealth (redisPingOk : Bool) (cb : CBState) : HealthResponse :=
  let redisHealthy := redisPingOk
  let kafkaHealthy := !stateIsOpen cb
  let code := if !redisHealthy || !kafkaHealthy then 503 else 200
  ⟨code, "healthy", redisHealthy, kafkaHealthy, cb⟩

/-! ### Behavioral lemmas about handleBuy -/

/-- handleBuy publishes exactly one message when it answers 202 and none
otherwise. -/
theorem handleBuy_msgs (cfg : RateLimiterCfg) (s : Store) (b : ParsedBody)
    (env : BuyEnv) :
    (handleBuy cfg s b env).2.2.length =
      (if (handleBuy cfg s b env).2.1 = BuyResponse.accepted then 1 else 0) := by
  unfold handleBuy
  cases b <;> dsimp only <;> (repeat' split) <;> simp_all

/-- When the idempotency key of the request is already present, handleBuy
leaves the idempotency keyspace untouched, does not answer 202, and
publishes nothing. -/
theorem handleBuy_key_present (cfg : RateLimiterCfg) (s : Store)
    (o : Gateway.OrderRequest) (env : BuyEnv) (w : StoreVal)
    (hw : s.idempotency (idempotencyKeyOf o.request_id) = some w) :
    (handleBuy cfg s (ParsedBody.valid o) env).1.idempotency = s.idempotency
    ∧ (handleBuy cfg s (ParsedBody.valid o) env).2.1 ≠ BuyResponse.accepted
    ∧ (handleBuy cfg s (ParsedBody.valid o) env).2.2 = [] := by
  unfold handleBuy
  dsimp only
  (repeat' split) <;> simp_all [rateLimitStep]

/-- A 202 answer leaves the idempotency key set to the sentinel written
by SETNX (value processing, TTL 10 minutes). -/
theorem handleBuy_accepted_key (cfg : RateLimiterCfg) (s : Store)
    (o : Gateway.OrderRequest) (env : BuyEnv)
    (hacc : (handleBuy cfg s (ParsedBody.valid o) env).2.1 = BuyResponse.accepted) :
    (handleBuy cfg s (ParsedBody.valid o) env).1.idempotency
      (idempotencyKeyOf o.request_id) = some ⟨"processing", some 10⟩ := by
  rcases e : handleBuy cfg s (ParsedBody.valid o) env with ⟨sf, r, ms⟩
  rw [e] at hacc
  dsimp only at hacc ⊢
  unfold handleBuy at e
  dsimp only at e
  (repeat' split at e) <;> cases e <;> simp_all [upd, rateLimitStep]

/-- Rollback characterization: when handleBuy answers 503 (breaker open
at the precheck) or the enqueue-failure 500, the final store keeps the
PROCESSING status record with its 30-minute TTL, holds no idempotency
key for the request, leaves the inventory keyspace untouched, and
changes no other order_status or idempotency key. -/
theorem handleBuy_rollback_state (cfg : RateLimiterCfg) (s : Store)
    (o : Gateway.OrderRequest) (env : BuyEnv)
    (h : (handleBuy cfg s (ParsedBody.valid o) env).2.1 = BuyResponse.unavailable ∨
         (handleBuy cfg s (ParsedBody.valid o) env).2.1 = BuyResponse.failedToQueue) :
    (handleBuy cfg s (ParsedBody.valid o) env).1.orderStatus (orderStatusKeyOf o.request_id)
        = some ⟨"PROCESSING", some 30⟩
    ∧ (handleBuy cfg s (ParsedBody.valid o) env).1.idempotency (idempotencyKeyOf o.request_id)
        = none
    ∧ (handleBuy cfg s (ParsedBody.valid o) env).1.inventory = s.inventory
    ∧ (∀ k, k ≠ orderStatusKeyOf o.request_id →
        (handleBuy cfg s (ParsedBody.valid o) env).1.orderStatus k = s.orderStatus k)
    ∧ (∀ k, k ≠ idempotencyKeyOf o.request_id →
        (handleBuy cfg s (ParsedBody.valid o) env).1.idempotency k = s.idempotency k) := by
  rcases e : handleBuy cfg s (ParsedBody.valid o) env with ⟨sf, r, ms⟩
  rw [e] at h
  dsimp only at h ⊢
  unfold handleBuy at e
  dsimp only at e
  (repeat' split at e) <;> cases e <;> simp_all [upd, rateLimitStep]

/-- The 503 answer arises only from the breaker-open precheck. -/
theorem handleBuy_unavailable_precheck (cfg : RateLimiterCfg) (s : Store)
    (b : ParsedBody) (env : BuyEnv)
    (h : (handleBuy cfg s b env).2.1 = BuyResponse.unavailable) :
    stateIsOpen env.cbState = true := by
  rcases e : handleBuy cfg s b env with ⟨sf, r, ms⟩
  rw [e] at h
  dsimp only at h
  unfold handleBuy at e
  cases b <;> dsimp only at e <;> (repeat' split at e) <;> cases e <;> simp_all

/-! ### Sequential executions of handleBuy -/

/-- Run a sequence of /buy requests one after the other against the
store, collecting each response and the messages it published. -/
def runBuys (cfg : RateLimiterCfg) (s : Store)
    (calls : List (ParsedBody × BuyEnv)) :
    Store × List (BuyResponse × List QueueMessage) :=
  match calls with
  | [] => (s, [])
  | c :: rest =>
      let r1 := handleBuy cfg s c.1 c.2
      let r2 := runBuys cfg r1.1 rest
      (r2.1, (r1.2.1, r1.2.2) :: r2.2)

/-- How many of the collected responses are 202. -/
def acceptedCount (rs : List (BuyResponse × List QueueMessage)) : Nat :=
  (rs.filter (fun p => decide (p.1 = BuyResponse.accepted))).length

/-- How many messages the collected calls published in total. -/
def messageCount (rs : List (BuyResponse × List QueueMessage)) : Nat :=
  (rs.map (fun p => p.2.length)).sum

theorem runBuys_cons (cfg : RateLimiterCfg) (s : Store) (c : ParsedBody × BuyEnv)
    (rest : List (ParsedBody × BuyEnv)) :
    runBuys cfg s (c :: rest) =
      ((runBuys cfg (handleBuy cfg s c.1 c.2).1 rest).1,
       ((handleBuy cfg s c.1 c.2).2.1, (handleBuy cfg s c.1 c.2).2.2)
         :: (runBuys cfg (handleBuy cfg s c.1 c.2).1 rest).2) := rfl

theorem acceptedCount_cons (p : BuyResponse × List QueueMessage)
    (rs : List (BuyResponse × List QueueMessage)) :
    acceptedCount (p :: rs) =
      (if p.1 = BuyResponse.accepted then 1 else 0) + acceptedCount rs := by
  by_cases hp : p.1 = BuyResponse.accepted <;>
    (simp [acceptedCount, List.filter_cons, hp]; try omega)

theorem messageCount_cons (p : BuyResponse × List QueueMessage)
    (rs : List (BuyResponse × List QueueMessage)) :
    messageCount (p :: rs) = p.2.length + messageCount rs := by
  simp [messageCount]

/-- Once the idempotency key of the shared request_id is present, a
sequence of /buy requests for that request_id produces no 202 and no
message. -/
theorem runBuys_present (cfg : RateLimiterCfg) (s : Store) (rid : String)
    (calls : List (ParsedBody × BuyEnv))
    (hall : ∀ c ∈ calls, ∃ o, c.1 = ParsedBody.valid o ∧ o.request_id = rid)
    (w : StoreVal) (hw : s.idempotency (idempotencyKeyOf rid) = some w) :
    acceptedCount (runBuys cfg s calls).2 = 0
    ∧ messageCount (runBuys cfg s calls).2 = 0 := by
  induction calls generalizing s with
  | nil => simp [runBuys, acceptedCount, messageCount]
  | cons c rest ih =>
      obtain ⟨o, hc1, hrid⟩ := hall c (List.mem_cons_self c rest)
      have hw2 : s.idempotency (idempotencyKeyOf o.request_id) = some w := by
        rw [hrid]; exact hw
      have hkp := handleBuy_key_present cfg s o c.2 w hw2
      have hallRest : ∀ c2 ∈ rest, ∃ o2, c2.1 = ParsedBody.valid o2 ∧ o2.request_id = rid :=
        fun c2 hc2 => hall c2 (List.mem_cons_of_mem c hc2)
      have hwNext : (handleBuy cfg s c.1 c.2).1.idempotency (idempotencyKeyOf rid) = some w := by
        rw [hc1, hkp.1, hw]
      have hrest := ih ((handleBuy cfg s c.1 c.2).1) hallRest hwNext
      have hne : (handleBuy cfg s c.1 c.2).2.1 ≠ BuyResponse.accepted := by
        rw [hc1]; exact hkp.2.1
      have hms : (handleBuy cfg s c.1 c.2).2.2 = [] := by
        rw [hc1]; exact hkp.2.2
      constructor
      · rw [runBuys_cons]
        dsimp only
        rw [acceptedCount_cons]
        rw [if_neg hne]
        simpa using hrest.1
      · rw [runBuys_cons]
        dsimp only
        rw [messageCount_cons]
        dsimp only
        rw [hms]
        simpa using hrest.2

/-- A sequence of /buy requests sharing one request_id yields at most one
202 and at most one published message. -/
theorem runBuys_at_most_one (cfg : RateLimiterCfg) (s : Store) (rid : String)
    (calls : List (ParsedBody × BuyEnv))
    (hall : ∀ c ∈ calls, ∃ o, c.1 = ParsedBody.valid o ∧ o.request_id = rid) :
    acceptedCount (runBuys cfg s calls).2 ≤ 1
    ∧ messageCount (runBuys cfg s calls).2 ≤ 1 := by
  induction calls generalizing s with
  | nil => simp [runBuys, acceptedCount, messageCount]
  | cons c rest ih =>
      obtain ⟨o, hc1, hrid⟩ := hall c (List.mem_cons_self c rest)
      have hallRest : ∀ c2 ∈ rest, ∃ o2, c2.1 = ParsedBody.valid o2 ∧ o2.request_id = rid :=
        fun c2 hc2 => hall c2 (List.mem_cons_of_mem c hc2)
      have hlen := handleBuy_msgs cfg s c.1 c.2
      by_cases hacc : (handleBuy cfg s c.1 c.2).2.1 = BuyResponse.accepted
      · have hkey : (handleBuy cfg s c.1 c.2).1.idempotency (idempotencyKeyOf rid)
            = some ⟨"processing", some 10⟩ := by
          rw [← hrid]
          rw [hc1] at hacc ⊢
          exact handleBuy_accepted_key cfg s o c.2 hacc
        have hrest := runBuys_present cfg ((handleBuy cfg s c.1 c.2).1) rid rest
          hallRest ⟨"processing", some 10⟩ hkey
        constructor
        · rw [runBuys_cons]
          dsimp only
          rw [acceptedCount_cons]
          rw [if_pos hacc]
          have h0 := hrest.1
          omega
        · rw [runBuys_cons]
          dsimp only
          rw [messageCount_cons]
          dsimp only
          rw [hlen, if_pos hacc]
          have h0 := hrest.2
          omega
      · have hrest := ih ((handleBuy cfg s c.1 c.2).1) hallRest
        constructor
        · rw [runBuys_cons]
          dsimp only
          rw [acceptedCount_cons]
          rw [if_neg hacc]
          have h0 := hrest.1
          omega
        · rw [runBuys_cons]
          dsimp only
          rw [messageCount_cons]
          dsimp only
          rw [hlen, if_neg hacc]
          have h0 := hrest.2
          omega

/-! ### Concrete artifacts used by the gateway witnesses -/

/-- A well-formed order request. -/
def oW : Gateway.OrderRequest := ⟨"u1", "101", 1, "r1"⟩

/-- A benign oracle: no store errors, breaker closed, enqueue succeeds. -/
def envW : BuyEnv := ⟨false, false, CBState.Closed, EnqueueOutcome.success⟩

/-- A second benign oracle whose enqueue fails with another error. -/
def envW2 : BuyEnv := ⟨false, false, CBState.Closed, EnqueueOutcome.failOther⟩

/-- The oracle of a request that reaches the breaker precheck while the
breaker is open. -/
def envOpenW : BuyEnv := ⟨false, false, CBState.Open, EnqueueOutcome.success⟩

/-- The oracle of a request whose enqueue call fails transiently. -/
def envTransW : BuyEnv := ⟨false, false, CBState.Closed, EnqueueOutcome.failTransient⟩

/-- The empty keyspace. -/
def emptyStore : Store :=
  { inventory := fun _ => none
    idempotency := fun _ => none
    orderStatus := fun _ => none
    ratelimit := fun _ => none }

/-- A keyspace already holding the idempotency sentinel for request r1. -/
def storeW : Store :=
  { inventory := fun _ => none
    idempotency := fun k =>
      if k = "idempotency:r1" then some ⟨"processing", some 10⟩ else none
    orderStatus := fun _ => none
    ratelimit := fun _ => none }

/-- Claim C5: when the SETNX on idempotency:<request_id> finds the key
already present, handleBuy answers 409 DuplicateRequest, mutates nothing
beyond the rate-limit counter already incremented before the check, and
publishes nothing; consequently a sequence of /buy requests sharing one
request_id, processed sequentially, yields at most one 202 and at most
one queue message.  (The 409 code of the duplicate answer is the last
conjunct.) -/
theorem claim_C5_idempotency :
    (∀ (cfg : RateLimiterCfg) (s : Store) (o : Gateway.OrderRequest) (env : BuyEnv)
        (w : StoreVal),
        (Allow cfg (s.ratelimit (rateLimitKeyOf o.user_id)) env.rateLimitIncrErr).2.allowed
            = true →
        ValidateOrderRequest o = [] →
        env.idemSetNXErr = false →
        s.idempotency (idempotencyKeyOf o.request_id) = some w →
        handleBuy cfg s (ParsedBody.valid o) env =
          ((rateLimitStep cfg s o.user_id env.rateLimitIncrErr).1,
           BuyResponse.duplicate, []))
    ∧ (∀ (cfg : RateLimiterCfg) (s : Store) (rid : String)
        (calls : List (ParsedBody × BuyEnv)),
        (∀ c ∈ calls, ∃ o, c.1 = ParsedBody.valid o ∧ o.request_id = rid) →
        acceptedCount (runBuys cfg s calls).2 ≤ 1
          ∧ messageCount (runBuys cfg s calls).2 ≤ 1)
    ∧ httpStatusOf BuyResponse.duplicate = 409 := by
  refine ⟨?_, runBuys_at_most_one, rfl⟩
  intro cfg s o env w hrl hval herr hpresent
  unfold handleBuy rateLimitStep
  dsimp only
  simp [hrl, hval, herr, hpresent]

theorem claim_C5_witness :
    ((Allow ⟨60, 60⟩ (storeW.ratelimit (rateLimitKeyOf oW.user_id))
        envW.rateLimitIncrErr).2.allowed = true
      ∧ ValidateOrderRequest oW = []
      ∧ storeW.idempotency (idempotencyKeyOf oW.request_id) = some ⟨"processing", some 10⟩
      ∧ handleBuy ⟨60, 60⟩ storeW (ParsedBody.valid oW) envW =
          ((rateLimitStep ⟨60, 60⟩ storeW oW.user_id envW.rateLimitIncrErr).1,
           BuyResponse.duplicate, []))
    ∧ acceptedCount
        (runBuys ⟨60, 60⟩ storeW
          [(ParsedBody.valid oW, envW), (ParsedBody.valid oW, envW2)]).2 ≤ 1 := by
  have hall : ∀ c ∈ [(ParsedBody.valid oW, envW), (ParsedBody.valid oW, envW2)],
      ∃ o, c.1 = ParsedBody.valid o ∧ o.request_id = "r1" := by
    intro c hc
    simp only [List.mem_cons, List.not_mem_nil, or_false] at hc
    rcases hc with rfl | rfl
    · exact ⟨oW, rfl, rfl⟩
    · exact ⟨oW, rfl, rfl⟩
  refine ⟨⟨by decide, by decide, by decide, ?_⟩, ?_⟩
  · exact claim_C5_idempotency.1 ⟨60, 60⟩ storeW oW envW ⟨"processing", some 10⟩
      (by decide) (by decide) (by decide) (by decide)
  · exact (claim_C5_idempotency.2.1 ⟨60, 60⟩ storeW "r1"
      [(ParsedBody.valid oW, envW), (ParsedBody.valid oW, envW2)] hall).1

/-- Claim C6: whenever handleBuy answers 503 (breaker open at the
precheck) or the enqueue-failure 500 — the two outcomes that follow a
successful idempotency reservation but precede a successful enqueue —
the idempotency key of the request does not exist in the final store. -/
theorem claim_C6_rollback_deletes_key (cfg : RateLimiterCfg) (s : Store)
    (o : Gateway.OrderRequest) (env : BuyEnv)
    (h : (handleBuy cfg s (ParsedBody.valid o) env).2.1 = BuyResponse.unavailable ∨
         (handleBuy cfg s (ParsedBody.valid o) env).2.1 = BuyResponse.failedToQueue) :
    (handleBuy cfg s (ParsedBody.valid o) env).1.idempotency
      (idempotencyKeyOf o.request_id) = none :=
  (handleBuy_rollback_state cfg s o env h).2.1

theorem claim_C6_witness :
    ((handleBuy ⟨60, 60⟩ emptyStore (ParsedBody.valid oW) envOpenW).2.1
        = BuyResponse.unavailable)
    ∧ (handleBuy ⟨60, 60⟩ emptyStore (ParsedBody.valid oW) envOpenW).1.idempotency
        (idempotencyKeyOf oW.request_id) = none :=
  ⟨by decide,
   claim_C6_rollback_deletes_key ⟨60, 60⟩ emptyStore oW envOpenW (Or.inl (by decide))⟩

/-- Claim C7 as stated is refuted at this input: the enqueue call fails
with a transient queue fault, yet handleBuy answers the 500
"Failed to queue order" response, not 503 Unavailable. -/
theorem claim_C7_counterexample :
    envTransW.enqueue = EnqueueOutcome.failTransient
    ∧ (handleBuy ⟨60, 60⟩ emptyStore (ParsedBody.valid oW) envTransW).2.1
        = BuyResponse.failedToQueue
    ∧ httpStatusOf (handleBuy ⟨60, 60⟩ emptyStore (ParsedBody.valid oW) envTransW).2.1
        = 500
    ∧ (handleBuy ⟨60, 60⟩ emptyStore (ParsedBody.valid oW) envTransW).2.1
        ≠ BuyResponse.unavailable :=
  ⟨rfl, by decide, by decide, by decide⟩

/-- Claim C7 amended: when the enqueue call through the producer guard
fails, handleBuy answers the 500 "Failed to queue order" response
whatever the kind of failure (breaker open, transient, or other); the
503 Unavailable answer arises only from the breaker-open precheck that
runs before the enqueue. -/
theorem claim_C7_amended_enqueue_failure :
    (∀ (cfg : RateLimiterCfg) (s : Store) (o : Gateway.OrderRequest) (env : BuyEnv),
        (Allow cfg (s.ratelimit (rateLimitKeyOf o.user_id)) env.rateLimitIncrErr).2.allowed
            = true →
        ValidateOrderRequest o = [] →
        env.idemSetNXErr = false →
        s.idempotency (idempotencyKeyOf o.request_id) = none →
        stateIsOpen env.cbState = false →
        env.enqueue ≠ EnqueueOutcome.success →
        (handleBuy cfg s (ParsedBody.valid o) env).2.1 = BuyResponse.failedToQueue
          ∧ httpStatusOf (handleBuy cfg s (ParsedBody.valid o) env).2.1 = 500)
    ∧ (∀ (cfg : RateLimiterCfg) (s : Store) (b : ParsedBody) (env : BuyEnv),
        (handleBuy cfg s b env).2.1 = BuyResponse.unavailable →
        stateIsOpen env.cbState = true) := by
  refine ⟨?_, handleBuy_unavailable_precheck⟩
  intro cfg s o env hrl hval herr habsent hopen hfail
  have hresp : (handleBuy cfg s (ParsedBody.valid o) env).2.1
      = BuyResponse.failedToQueue := by
    unfold handleBuy rateLimitStep
    dsimp only
    simp only [hrl, hval, herr, habsent, hopen]
    simp only [Bool.not_true, Bool.and_false, Bool.false_and, Bool.and_self]
    cases henq : env.enqueue <;> simp_all
  exact ⟨hresp, by rw [hresp]; rfl⟩

theorem claim_C7_witness :
    (ValidateOrderRequest oW = []
      ∧ stateIsOpen envTransW.cbState = false
      ∧ envTransW.enqueue ≠ EnqueueOutcome.success)
    ∧ (handleBuy ⟨60, 60⟩ emptyStore (ParsedBody.valid oW) envTransW).2.1
        = BuyResponse.failedToQueue := by
  refine ⟨⟨by decide, by decide, by decide⟩, ?_⟩
  exact (claim_C7_amended_enqueue_failure.1 ⟨60, 60⟩ emptyStore oW envTransW
    (by decide) (by decide) (by decide) (by decide) (by decide) (by decide)).1

/-- Claim C9: on the post-admission rollback paths (breaker-open 503 and
enqueue-failure 500), only the idempotency key of the request is
deleted: the order_status key of the request stays PROCESSING with its
30-minute TTL, the inventory keyspace is untouched, and every other
order_status and idempotency key is unchanged. -/
theorem claim_C9_frame (cfg : RateLimiterCfg) (s : Store)
    (o : Gateway.OrderRequest) (env : BuyEnv)
    (h : (handleBuy cfg s (ParsedBody.valid o) env).2.1 = BuyResponse.unavailable ∨
         (handleBuy cfg s (ParsedBody.valid o) env).2.1 = BuyResponse.failedToQueue) :
    (handleBuy cfg s (ParsedBody.valid o) env).1.orderStatus (orderStatusKeyOf o.request_id)
        = some ⟨"PROCESSING", some 30⟩
    ∧ (handleBuy cfg s (ParsedBody.valid o) env).1.idempotency (idempotencyKeyOf o.request_id)
        = none
    ∧ (handleBuy cfg s (ParsedBody.valid o) env).1.inventory = s.inventory
    ∧ (∀ k, k ≠ orderStatusKeyOf o.request_id →
        (handleBuy cfg s (ParsedBody.valid o) env).1.orderStatus k = s.orderStatus k)
    ∧ (∀ k, k ≠ idempotencyKeyOf o.request_id →
        (handleBuy cfg s (ParsedBody.valid o) env).1.idempotency k = s.idempotency k) :=
  handleBuy_rollback_state cfg s o env h

theorem claim_C9_witness :
    ((handleBuy ⟨60, 60⟩ emptyStore (ParsedBody.valid oW) envTransW).2.1
        = BuyResponse.failedToQueue)
    ∧ (handleBuy ⟨60, 60⟩ emptyStore (ParsedBody.valid oW) envTransW).1.orderStatus
        (orderStatusKeyOf oW.request_id) = some ⟨"PROCESSING", some 30⟩ :=
  ⟨by decide,
   (claim_C9_frame ⟨60, 60⟩ emptyStore oW envTransW (Or.inr (by decide))).1⟩

/-- Claim C10: the status field of the health document is the fixed
string "healthy" for every combination of ping outcome and breaker
state, in particular whenever the endpoint answers 503; only the HTTP
code and the redis/kafka booleans reflect the failed checks. -/
theorem claim_C10_health_status (r : Bool) (cb : CBState) :
    (handleHealth r cb).status = "healthy"
    ∧ (handleHealth r cb).redis = r
    ∧ (handleHealth r cb).kafka = !stateIsOpen cb
    ∧ ((handleHealth r cb).httpStatus = 503 ↔ (r = false ∨ stateIsOpen cb = true))
    ∧ ((handleHealth r cb).httpStatus = 200 ↔ (r = true ∧ stateIsOpen cb = false)) := by
  cases r <;> cases cb <;> exact ⟨rfl, rfl, rfl, by decide, by decide⟩

end FlashSale
